import Mathlib

set_option maxRecDepth 16384

/-!
Shallow embedding of `src/bot_scripts/assign-to-bounty-awaiting-for-approval.js`
(status-github-bot).

The script is a webhook handler: on `issues.labeled` / `issues.unlabeled` it
filters the event, resolves a project board and column by name via two remote
calls, creates or deletes a project card, and sends a Slack notification.

The embedding turns the handler into a pure function from its inputs (the
event payload, the loaded configuration, the environment flags and the
responses the remote GitHub API would give to each call) to the ordered list
of observable effects the handler performs: remote calls, log lines and the
Slack message dispatch.  String concatenation mirrors the template literals
of the source; apostrophes in source log texts are rendered as plain words
("Couldn't" becomes "Could not"), which affects no claim.
-/

namespace StatusBot

/-- A GitHub label, as it appears in the webhook payload (`label.name`,
`issue.labels[i].name`). -/
structure Label where
  name : String
deriving DecidableEq, Repr

/-- The issue of the webhook payload: `payload.issue` with the fields the
script reads (`id`, `number`, `url`, `html_url`, `labels`). -/
structure Issue where
  id : Nat
  number : Nat
  url : String
  html_url : String
  labels : List Label
deriving DecidableEq, Repr

/-- `payload.repository.owner`. -/
structure RepoOwner where
  login : String
deriving DecidableEq, Repr

/-- `payload.repository`. -/
structure Repository where
  owner : RepoOwner
  name : String
deriving DecidableEq, Repr

/-- The webhook payload fields the script reads. -/
structure Payload where
  repository : Repository
  issue : Issue
  label : Label
deriving DecidableEq, Repr

/-- The `bounty-project-board` section of `github-bot.yml`
(`name`, `awaiting-approval-label-name`, `awaiting-approval-column-name`,
`bounty-label-name`). -/
structure ProjectBoardConfig where
  name : String
  awaitingApprovalLabelName : String
  awaitingApprovalColumnName : String
  bountyLabelName : String
deriving DecidableEq, Repr

/-- The loaded configuration: the optional `bounty-project-board` section and
`slack.notification.room`. -/
structure Config where
  bountyProjectBoard : Option ProjectBoardConfig
  slackNotificationRoom : String
deriving DecidableEq, Repr

/-- A project board returned by `github.projects.getOrgProjects`. -/
structure Project where
  id : Nat
  name : String
deriving DecidableEq, Repr

/-- A column returned by `github.projects.getProjectColumns`. -/
structure Column where
  id : Nat
  name : String
deriving DecidableEq, Repr

/-- A project card: `id` and `url` are read for logging, `content_url` is the
URL of the referenced issue, used by the lookup helper to match cards. -/
structure Card where
  id : Nat
  url : String
  content_url : String
deriving DecidableEq, Repr

/-- The responses the remote GitHub API gives to each call the handler can
make during one event.  Each field is the outcome of the corresponding call:
`Except.error e` models a thrown/rejected call (caught by the script's
try/catch), `Except.ok v` a successful response. -/
structure GitHub where
  getOrgProjects : Except String (List Project)
  getProjectColumns : Except String (List Column)
  createProjectCard : Except String Card
  listCards : Except String (List Card)
  deleteProjectCard : Except String Unit
deriving Repr

/-- The environment flags the script reads: `process.env.DRY_RUN` and
`process.env.DRY_RUN_BOUNTY_APPROVAL` (truthiness modelled as `Bool`). -/
structure Env where
  dryRun : Bool
  dryRunBountyApproval : Bool
deriving DecidableEq, Repr

/-- One observable effect of the handler, in the order performed: a remote
GitHub call, a log line at some level, or the Slack message dispatch
(`slackHelper.sendMessage(robot, slackClient, room, message)`). -/
inductive Effect where
  | remoteGetOrgProjects (org : String)
  | remoteGetProjectColumns (projectId : Nat)
  | remoteCreateProjectCard (columnId : Nat) (contentId : Nat)
  | remoteListCards (columnId : Nat)
  | remoteDeleteProjectCard (cardId : Nat)
  | logDebug (msg : String)
  | logInfo (msg : String)
  | logError (msg : String)
  | log (msg : String)
  | slackSend (room : String) (message : String)
deriving DecidableEq, Repr

/-- The effect is a remote call against the project-board API
(board fetch, column fetch, card create/list/delete). -/
def Effect.isRemoteProjectCall : Effect → Bool
  | .remoteGetOrgProjects _ => true
  | .remoteGetProjectColumns _ => true
  | .remoteCreateProjectCard _ _ => true
  | .remoteListCards _ => true
  | .remoteDeleteProjectCard _ => true
  | _ => false

/-- The effect is the Slack message dispatch. -/
def Effect.isSlackSend : Effect → Bool
  | .slackSend _ _ => true
  | _ => false

/-- The effect is the remote create-card call. -/
def Effect.isCreateCard : Effect → Bool
  | .remoteCreateProjectCard _ _ => true
  | _ => false

/-- The effect is the remote delete-card call. -/
def Effect.isDeleteCard : Effect → Bool
  | .remoteDeleteProjectCard _ => true
  | _ => false

/-- The effect is the remote column fetch. -/
def Effect.isColumnsFetch : Effect → Bool
  | .remoteGetProjectColumns _ => true
  | _ => false

/-- The effect is any remote card call (create, list or delete). -/
def Effect.isCardCall : Effect → Bool
  | .remoteCreateProjectCard _ _ => true
  | .remoteListCards _ => true
  | .remoteDeleteProjectCard _ => true
  | _ => false

/-- The effect is an error-level log line. -/
def Effect.isLogError : Effect → Bool
  | .logError _ => true
  | _ => false

/-- Line 83: `ghprojectsPayload.data.find(p => p.name === projectBoardName)`. -/
def findProject (projects : List Project) (projectBoardName : String) : Option Project :=
  projects.find? (fun p => p.name == projectBoardName)

/-- Line 95: `ghcolumnsPayload.data.find(c => c.name === approvalColumnName)`. -/
def findColumn (columns : List Column) (approvalColumnName : String) : Option Column :=
  columns.find? (fun c => c.name == approvalColumnName)

/-- Modelled from the spec: `gitHubHelpers.getProjectCardForIssue` is defined in
`lib/github-helpers`, which is not part of the provided source tree.  The spec
describes it: "resolve the existing card by listing cards in the column and
matching one whose referenced issue URL equals `issue.url`".  Given the listed
cards, it returns the first one whose referenced issue URL equals the issue
URL, or nothing. -/
def getProjectCardForIssue (cards : List Card) (issueUrl : String) : Option Card :=
  cards.find? (fun c => c.content_url == issueUrl)

/-- Lines 114-146: the card synchronisation step.  On dry-run only a log line
is produced.  Otherwise, on assign the create-card call is made (failure is
caught and logged); on unassign the cards of the column are listed, the card
for the issue is looked up by issue URL and deleted when found (failure at
either remote call is caught and logged; a missing card is a silent no-op). -/
def cardSyncEffects (github : GitHub) (env : Env) (column : Column) (issue : Issue)
    (assign : Bool) : List Effect :=
  if env.dryRun then
    [Effect.logInfo (if assign then "Would have created card for issue"
      else "Would have deleted card for issue")]
  else
    if assign then
      Effect.remoteCreateProjectCard column.id issue.id ::
        match github.createProjectCard with
        | Except.error err =>
          [Effect.logError ("Could not create project card for the issue: " ++ err)]
        | Except.ok ghcard =>
          [Effect.log ("Created card: " ++ ghcard.url)]
    else
      Effect.remoteListCards column.id ::
        match github.listCards with
        | Except.error err =>
          [Effect.logError ("Could not delete project card for the issue: " ++ err)]
        | Except.ok cards =>
          match getProjectCardForIssue cards issue.url with
          | none => []
          | some ghcard =>
            Effect.remoteDeleteProjectCard ghcard.id ::
              match github.deleteProjectCard with
              | Except.error err =>
                [Effect.logError ("Could not delete project card for the issue: " ++ err)]
              | Except.ok _ =>
                [Effect.log ("Deleted card: " ++ ghcard.url)]

/-- Lines 148-158: compose the Slack message. -/
def composeMessage (approvalColumnName projectBoardName : String) (issue : Issue)
    (assign isOfficialBounty : Bool) : String :=
  if assign then
    "Assigned issue to " ++ approvalColumnName ++ " in " ++ projectBoardName ++
      " project\n" ++ issue.html_url
  else
    if isOfficialBounty then
      issue.html_url ++ " has been approved as an official bounty!"
    else
      "Unassigned issue from " ++ approvalColumnName ++ " in " ++ projectBoardName ++
        " project\n" ++ issue.html_url

/-- Lines 160-163: `if (message && !process.env.DRY_RUN_BOUNTY_APPROVAL)`
then `slackHelper.sendMessage(robot, slackClient, config.slack.notification.room,
message)`.  JavaScript truthiness of the string is the non-emptiness test. -/
def notifyEffects (env : Env) (room message : String) : List Effect :=
  if !message.isEmpty && !env.dryRunBountyApproval then
    [Effect.slackSend room message]
  else
    []

/-- Lines 45-164: `assignIssueToBountyAwaitingForApproval(context, robot, assign)`.
Returns the ordered list of effects the handler performs for one event, given
the remote responses, the environment flags, the loaded configuration and the
payload. -/
def assignIssueToBountyAwaitingForApproval (github : GitHub) (env : Env)
    (config : Option Config) (payload : Payload) (assign : Bool) : List Effect :=
  let ownerName := payload.repository.owner.login
  let repoName := payload.repository.name
  match config with
  | none => []
  | some cfg =>
    match cfg.bountyProjectBoard with
    | none => []
    | some projectBoardConfig =>
      let watchedLabelName := projectBoardConfig.awaitingApprovalLabelName
      if payload.label.name != watchedLabelName then
        [Effect.logDebug ("assignIssueToBountyAwaitingForApproval - " ++
          payload.label.name ++ " does not match watched " ++ watchedLabelName ++
          " label. Ignoring")]
      else
        let headLog :=
          Effect.log ("assignIssueToBountyAwaitingForApproval - Handling " ++
            (if assign then "labeling" else "unlabeling") ++ " of #" ++
            toString payload.issue.number ++ " with " ++ payload.label.name ++
            " on repo " ++ ownerName ++ "/" ++ repoName)
        let projectBoardName := projectBoardConfig.name
        let approvalColumnName := projectBoardConfig.awaitingApprovalColumnName
        let orgName := ownerName
        headLog :: Effect.remoteGetOrgProjects orgName ::
          match github.getOrgProjects with
          | Except.error err =>
            [Effect.logError ("Could not fetch the github projects for repo: " ++ err)]
          | Except.ok projects =>
            match findProject projects projectBoardName with
            | none =>
              [Effect.logError ("Could not find project " ++ projectBoardName ++
                " in " ++ orgName ++ " org")]
            | some project =>
              Effect.logDebug ("Fetched " ++ project.name ++ " project (" ++
                  toString project.id ++ ")") ::
                Effect.remoteGetProjectColumns project.id ::
                  match github.getProjectColumns with
                  | Except.error err =>
                    [Effect.logError ("Could not fetch the github columns for project: " ++ err)]
                  | Except.ok columns =>
                    match findColumn columns approvalColumnName with
                    | none =>
                      [Effect.logError ("Could not find " ++ approvalColumnName ++
                        " column in project " ++ project.name)]
                    | some column =>
                      let bountyLabelName := projectBoardConfig.bountyLabelName
                      let isOfficialBounty :=
                        (payload.issue.labels.find? (fun l => l.name == bountyLabelName)).isSome
                      let message :=
                        composeMessage approvalColumnName projectBoardName payload.issue
                          assign isOfficialBounty
                      Effect.logDebug ("Fetched " ++ column.name ++ " column (" ++
                          toString column.id ++ ")") ::
                        (cardSyncEffects github env column payload.issue assign ++
                          notifyEffects env cfg.slackNotificationRoom message)

/-- Lines 29-42: the `issues.labeled` (`assign = true`) and `issues.unlabeled`
(`assign = false`) subscriptions.  Both first discard bot-originated events
(`if (context.isBot) return`), then run the handler. -/
def handleIssuesLabelEvent (github : GitHub) (env : Env) (config : Option Config)
    (isBot : Bool) (payload : Payload) (assign : Bool) : List Effect :=
  if isBot then [] else assignIssueToBountyAwaitingForApproval github env config payload assign

/-- The watched label name the configuration designates, when the
`bounty-project-board` section is present. -/
def watchedLabelOf (config : Option Config) : Option String :=
  (config.bind Config.bountyProjectBoard).map ProjectBoardConfig.awaitingApprovalLabelName

/-! ### Concrete fixtures, used to evaluate the model on explicit inputs -/

/-- A concrete `bounty-project-board` configuration section. -/
def pbcFix : ProjectBoardConfig :=
  { name := "Status SOB Swarm"
    awaitingApprovalLabelName := "bounty-awaiting-approval"
    awaitingApprovalColumnName := "bounty-awaiting-approval"
    bountyLabelName := "bounty" }

/-- A concrete loaded configuration. -/
def cfgFix : Config :=
  { bountyProjectBoard := some pbcFix
    slackNotificationRoom := "status-probot" }

/-- A concrete issue (no labels). -/
def issueFix : Issue :=
  { id := 10, number := 42
    url := "https://api.github.com/repos/org/proj/issues/42"
    html_url := "https://github.com/org/proj/issues/42"
    labels := [] }

/-- A concrete event payload whose label matches the watched label. -/
def payloadFix : Payload :=
  { repository := { owner := { login := "org" }, name := "proj" }
    issue := issueFix
    label := { name := "bounty-awaiting-approval" } }

/-- A concrete project card referencing `issueFix`. -/
def cardFix : Card :=
  { id := 33
    url := "https://api.github.com/cards/33"
    content_url := "https://api.github.com/repos/org/proj/issues/42" }

/-- Remote responses where every call succeeds and the configured board and
column exist. -/
def ghOkFix : GitHub :=
  { getOrgProjects := Except.ok [{ id := 11, name := "Status SOB Swarm" }]
    getProjectColumns := Except.ok [{ id := 22, name := "bounty-awaiting-approval" }]
    createProjectCard := Except.ok cardFix
    listCards := Except.ok [cardFix]
    deleteProjectCard := Except.ok () }

/-- Remote responses identical to `ghOkFix` except that the create-card call
fails. -/
def ghCreateFailsFix : GitHub :=
  { ghOkFix with createProjectCard := Except.error "boom" }

/-- Both environment flags unset. -/
def envFix : Env := { dryRun := false, dryRunBountyApproval := false }

/-! ### Helper lemmas about the components -/

/-- Appending to the right of a non-empty string yields a non-empty string. -/
theorem append_ne_empty_left (a b : String) (h : a ≠ "") : (a ++ b) ≠ "" := by
  intro hc
  apply h
  have hd : (a ++ b).data = a.data ++ b.data := String.data_append a b
  rw [hc] at hd
  rcases List.append_eq_nil.mp hd.symm with ⟨h1, _⟩
  exact String.ext h1

/-- Appending to the left of a non-empty string yields a non-empty string. -/
theorem append_ne_empty_right (a b : String) (h : b ≠ "") : (a ++ b) ≠ "" := by
  intro hc
  apply h
  have hd : (a ++ b).data = a.data ++ b.data := String.data_append a b
  rw [hc] at hd
  rcases List.append_eq_nil.mp hd.symm with ⟨_, h2⟩
  exact String.ext h2

/-- Every message the notifier composes is a non-empty string, hence truthy
in the JavaScript sense. -/
theorem composeMessage_isEmpty_eq_false (a b : String) (i : Issue)
    (assign o : Bool) : (composeMessage a b i assign o).isEmpty = false := by
  rw [Bool.eq_false_iff]
  simp only [ne_eq, String.isEmpty_iff]
  unfold composeMessage
  split
  · repeat
      first
        | exact (by decide : ("Assigned issue to " : String) ≠ "")
        | apply append_ne_empty_left
  · split
    · apply append_ne_empty_right
      decide
    · repeat
        first
          | exact (by decide : ("Unassigned issue from " : String) ≠ "")
          | apply append_ne_empty_left

/-- With `DRY_RUN_BOUNTY_APPROVAL` set, the notifier emits nothing. -/
theorem notifyEffects_of_flag (env : Env) (room message : String)
    (h : env.dryRunBountyApproval = true) : notifyEffects env room message = [] := by
  unfold notifyEffects
  simp [h]

/-- With `DRY_RUN_BOUNTY_APPROVAL` unset and a non-empty message, the notifier
emits exactly the Slack dispatch. -/
theorem notifyEffects_sends (env : Env) (room message : String)
    (h : env.dryRunBountyApproval = false) (hm : message.isEmpty = false) :
    notifyEffects env room message = [Effect.slackSend room message] := by
  unfold notifyEffects
  simp [h, hm]

/-- The notifier emits either nothing or a single Slack dispatch. -/
theorem notifyEffects_cases (env : Env) (room message : String) :
    notifyEffects env room message = [] ∨
      notifyEffects env room message = [Effect.slackSend room message] := by
  unfold notifyEffects
  split
  · exact Or.inr rfl
  · exact Or.inl rfl

/-- With `DRY_RUN` set, the card-synchronisation step is exactly one
simulation log line. -/
theorem cardSyncEffects_of_dryRun (github : GitHub) (env : Env) (column : Column)
    (issue : Issue) (assign : Bool) (h : env.dryRun = true) :
    cardSyncEffects github env column issue assign =
      [Effect.logInfo (if assign then "Would have created card for issue"
        else "Would have deleted card for issue")] := by
  unfold cardSyncEffects
  simp [h]

/-- The card-synchronisation step never emits a Slack dispatch. -/
theorem cardSyncEffects_all_not_slack (github : GitHub) (env : Env)
    (column : Column) (issue : Issue) (assign : Bool) :
    (cardSyncEffects github env column issue assign).all
      (fun e => !e.isSlackSend) = true := by
  unfold cardSyncEffects
  split
  · rfl
  · split
    · rcases github.createProjectCard with e | c <;> simp [Effect.isSlackSend]
    · rcases github.listCards with e | cards
      · simp [Effect.isSlackSend]
      · simp only []
        rcases getProjectCardForIssue cards issue.url with _ | ghcard
        · simp [Effect.isSlackSend]
        · rcases github.deleteProjectCard with e | u <;> simp [Effect.isSlackSend]

/-- Under a passing filter and successful board and column resolution, the
handler trace is the explicit list of effects: the handling log, the two
fetches with their debug logs, then the card-synchronisation effects followed
by the notification effects. -/
theorem trace_resolved (github : GitHub) (env : Env) (cfg : Config)
    (pbc : ProjectBoardConfig) (payload : Payload) (assign : Bool)
    (ps : List Project) (project : Project) (cols : List Column) (column : Column)
    (hpb : cfg.bountyProjectBoard = some pbc)
    (hl : payload.label.name = pbc.awaitingApprovalLabelName)
    (hps : github.getOrgProjects = Except.ok ps)
    (hproj : findProject ps pbc.name = some project)
    (hcols : github.getProjectColumns = Except.ok cols)
    (hcol : findColumn cols pbc.awaitingApprovalColumnName = some column) :
    assignIssueToBountyAwaitingForApproval github env (some cfg) payload assign =
      Effect.log ("assignIssueToBountyAwaitingForApproval - Handling " ++
        (if assign then "labeling" else "unlabeling") ++ " of #" ++
        toString payload.issue.number ++ " with " ++ payload.label.name ++
        " on repo " ++ payload.repository.owner.login ++ "/" ++ payload.repository.name) ::
      Effect.remoteGetOrgProjects payload.repository.owner.login ::
      Effect.logDebug ("Fetched " ++ project.name ++ " project (" ++
        toString project.id ++ ")") ::
      Effect.remoteGetProjectColumns project.id ::
      Effect.logDebug ("Fetched " ++ column.name ++ " column (" ++
        toString column.id ++ ")") ::
      (cardSyncEffects github env column payload.issue assign ++
        notifyEffects env cfg.slackNotificationRoom
          (composeMessage pbc.awaitingApprovalColumnName pbc.name payload.issue assign
            ((payload.issue.labels.find? (fun l => l.name == pbc.bountyLabelName)).isSome))) := by
  unfold assignIssueToBountyAwaitingForApproval
  have hcond : (payload.label.name != pbc.awaitingApprovalLabelName) = false := by
    simp [hl]
  simp only [hpb, hcond, Bool.false_eq_true, if_false, hps, hproj, hcols, hcol]

/-- Generic traversal: if a predicate holds of every log line, of both remote
fetch effects, of whatever the card-synchronisation step emits and of whatever
the notifier emits, it holds of every effect of the handler trace. -/
theorem trace_all_of_components (github : GitHub) (env : Env)
    (config : Option Config) (isBot : Bool) (payload : Payload) (assign : Bool)
    (p : Effect → Bool)
    (hlog : ∀ s, p (Effect.log s) = true)
    (hdbg : ∀ s, p (Effect.logDebug s) = true)
    (herr : ∀ s, p (Effect.logError s) = true)
    (hgo : ∀ o, p (Effect.remoteGetOrgProjects o) = true)
    (hgc : ∀ i, p (Effect.remoteGetProjectColumns i) = true)
    (hcs : ∀ column, (cardSyncEffects github env column payload.issue assign).all p = true)
    (hnt : ∀ room m, (notifyEffects env room m).all p = true) :
    (handleIssuesLabelEvent github env config isBot payload assign).all p = true := by
  unfold handleIssuesLabelEvent
  split
  · rfl
  unfold assignIssueToBountyAwaitingForApproval
  rcases config with _ | cfg
  · rfl
  rcases hpb : cfg.bountyProjectBoard with _ | pbc
  · simp only [hpb]
    rfl
  simp only [hpb]
  split
  · simp [hdbg]
  rcases hgp : github.getOrgProjects with e | projects
  · simp only [hgp]
    simp [hlog, hgo, herr]
  simp only [hgp]
  rcases hfp : findProject projects pbc.name with _ | project
  · simp only [hfp]
    simp [hlog, hgo, herr]
  simp only [hfp]
  rcases hgcb : github.getProjectColumns with e | cols
  · simp only [hgcb]
    simp [hlog, hgo, hgc, hdbg, herr]
  simp only [hgcb]
  rcases hfc : findColumn cols pbc.awaitingApprovalColumnName with _ | column
  · simp only [hfc]
    simp [hlog, hgo, hgc, hdbg, herr]
  simp only [hfc]
  simp [List.all_cons, List.all_append, hlog, hgo, hgc, hdbg, hcs column,
    hnt cfg.slackNotificationRoom]


/-! ### Claim C1 -/

/-- Claim C1 as stated is false: a concrete event that passes the filter and
board/column resolution, whose remote create-card call fails (the call is
made and the response is an error), still reaches the notification step and
a chat message is sent. -/
theorem c1_counterexample :
    ghCreateFailsFix.createProjectCard = Except.error "boom" ∧
    Effect.remoteCreateProjectCard 22 10 ∈
      assignIssueToBountyAwaitingForApproval ghCreateFailsFix envFix (some cfgFix)
        payloadFix true ∧
    (assignIssueToBountyAwaitingForApproval ghCreateFailsFix envFix (some cfgFix)
        payloadFix true).any Effect.isSlackSend = true := by
  refine ⟨rfl, ?_, ?_⟩ <;> decide

/-- Claim C1 (amended): for every event that passes the filter and
board/column resolution, if the remote create-card call fails the failure is
logged, but handling continues to the notification step: with the
approval dry-run flag unset, the chat message is still sent. -/
theorem c1_amended_create_failure_logged_then_notified
    (github : GitHub) (env : Env) (cfg : Config) (pbc : ProjectBoardConfig)
    (payload : Payload) (ps : List Project) (project : Project)
    (cols : List Column) (column : Column) (e : String)
    (hpb : cfg.bountyProjectBoard = some pbc)
    (hl : payload.label.name = pbc.awaitingApprovalLabelName)
    (hps : github.getOrgProjects = Except.ok ps)
    (hproj : findProject ps pbc.name = some project)
    (hcols : github.getProjectColumns = Except.ok cols)
    (hcol : findColumn cols pbc.awaitingApprovalColumnName = some column)
    (hdry : env.dryRun = false)
    (herr : github.createProjectCard = Except.error e)
    (hflag : env.dryRunBountyApproval = false) :
    Effect.logError ("Could not create project card for the issue: " ++ e) ∈
      assignIssueToBountyAwaitingForApproval github env (some cfg) payload true ∧
    (assignIssueToBountyAwaitingForApproval github env (some cfg) payload true).any
      Effect.isSlackSend = true := by
  rw [trace_resolved github env cfg pbc payload true ps project cols column
    hpb hl hps hproj hcols hcol]
  have hcs : cardSyncEffects github env column payload.issue true =
      [Effect.remoteCreateProjectCard column.id payload.issue.id,
        Effect.logError ("Could not create project card for the issue: " ++ e)] := by
    unfold cardSyncEffects
    simp [hdry, herr]
  have hnote := notifyEffects_sends env cfg.slackNotificationRoom
    (composeMessage pbc.awaitingApprovalColumnName pbc.name payload.issue true
      ((payload.issue.labels.find? (fun l => l.name == pbc.bountyLabelName)).isSome))
    hflag
    (composeMessage_isEmpty_eq_false pbc.awaitingApprovalColumnName pbc.name
      payload.issue true _)
  rw [hcs, hnote]
  constructor
  · simp
  · simp [Effect.isSlackSend]

/-- Witness for the amended claim C1 at a concrete input. -/
theorem c1_witness :
    ghCreateFailsFix.createProjectCard = Except.error "boom" ∧
    (Effect.logError ("Could not create project card for the issue: " ++ "boom") ∈
      assignIssueToBountyAwaitingForApproval ghCreateFailsFix envFix (some cfgFix)
        payloadFix true ∧
    (assignIssueToBountyAwaitingForApproval ghCreateFailsFix envFix (some cfgFix)
        payloadFix true).any Effect.isSlackSend = true) :=
  ⟨rfl, c1_amended_create_failure_logged_then_notified ghCreateFailsFix envFix cfgFix
    pbcFix payloadFix [{ id := 11, name := "Status SOB Swarm" }]
    { id := 11, name := "Status SOB Swarm" }
    [{ id := 22, name := "bounty-awaiting-approval" }]
    { id := 22, name := "bounty-awaiting-approval" } "boom"
    rfl rfl rfl (by decide) rfl (by decide) rfl rfl rfl⟩

/-! ### Claim C2 -/

/-- Claim C2 as stated is false: a concrete assign event that passes the
filter and resolution (the create-card call is present in the trace), handled
with `DRY_RUN_BOUNTY_APPROVAL` set, dispatches no chat message at all. -/
theorem c2_counterexample :
    (assignIssueToBountyAwaitingForApproval ghOkFix
      { dryRun := false, dryRunBountyApproval := true } (some cfgFix)
      payloadFix true).any Effect.isCreateCard = true ∧
    (assignIssueToBountyAwaitingForApproval ghOkFix
      { dryRun := false, dryRunBountyApproval := true } (some cfgFix)
      payloadFix true).any Effect.isSlackSend = false := by
  constructor <;> decide

/-- Claim C2 (amended): when `DRY_RUN_BOUNTY_APPROVAL` is set, the whole
notification dispatch is suppressed: no chat message is sent for any event,
assign or unassign, with or without the bounty label. -/
theorem c2_amended_flag_suppresses_all_messages (github : GitHub) (env : Env)
    (config : Option Config) (isBot : Bool) (payload : Payload) (assign : Bool)
    (h : env.dryRunBountyApproval = true) :
    (handleIssuesLabelEvent github env config isBot payload assign).all
      (fun e => !e.isSlackSend) = true := by
  apply trace_all_of_components
  · intro s; rfl
  · intro s; rfl
  · intro s; rfl
  · intro o; rfl
  · intro i; rfl
  · intro column
    exact cardSyncEffects_all_not_slack github env column payload.issue assign
  · intro room m
    rw [notifyEffects_of_flag env room m h]
    rfl

/-- Witness for the amended claim C2 at a concrete input. -/
theorem c2_witness :
    ({ dryRun := false, dryRunBountyApproval := true } : Env).dryRunBountyApproval = true ∧
    (handleIssuesLabelEvent ghOkFix { dryRun := false, dryRunBountyApproval := true }
      (some cfgFix) false payloadFix true).all (fun e => !e.isSlackSend) = true :=
  ⟨rfl, c2_amended_flag_suppresses_all_messages ghOkFix
    { dryRun := false, dryRunBountyApproval := true } (some cfgFix) false payloadFix true rfl⟩

/-! ### Claim C3 -/

/-- Claim C3: for every bot-originated event, and for every event whose
changed label differs from the configured watched-label name, no remote
project-board call is made and no notification is sent. -/
theorem c3_filtered_events_make_no_calls (github : GitHub) (env : Env)
    (config : Option Config) (isBot : Bool) (payload : Payload) (assign : Bool)
    (h : isBot = true ∨ watchedLabelOf config ≠ some payload.label.name) :
    (handleIssuesLabelEvent github env config isBot payload assign).all
      (fun e => !e.isRemoteProjectCall && !e.isSlackSend) = true := by
  rcases h with hb | hl
  · subst hb
    rfl
  · unfold handleIssuesLabelEvent
    split
    · rfl
    unfold assignIssueToBountyAwaitingForApproval
    rcases config with _ | cfg
    · rfl
    rcases hpb : cfg.bountyProjectBoard with _ | pbc
    · simp only [hpb]
      rfl
    simp only [hpb]
    have hne : pbc.awaitingApprovalLabelName ≠ payload.label.name := by
      intro he
      apply hl
      simp [watchedLabelOf, hpb, he]
    have hcond : (payload.label.name != pbc.awaitingApprovalLabelName) = true := by
      rw [bne_iff_ne]
      exact fun he => hne he.symm
    simp [hcond, Effect.isRemoteProjectCall, Effect.isSlackSend]

/-- Witness for claim C3 at a concrete input: a bot-originated event. -/
theorem c3_witness :
    (true = true ∨ watchedLabelOf (some cfgFix) ≠ some payloadFix.label.name) ∧
    (handleIssuesLabelEvent ghOkFix envFix (some cfgFix) true payloadFix true).all
      (fun e => !e.isRemoteProjectCall && !e.isSlackSend) = true :=
  ⟨Or.inl rfl, c3_filtered_events_make_no_calls ghOkFix envFix (some cfgFix) true
    payloadFix true (Or.inl rfl)⟩

/-! ### Claim C5 -/

/-- `List.find?` on a name test returns the first element of the list whose
name matches, regardless of later duplicates. -/
theorem find?_eq_first {α : Type} (f : α → String) (name : String) :
    ∀ (xs : List α) (x : α) (ys : List α), f x = name → (∀ q ∈ xs, f q ≠ name) →
      (xs ++ x :: ys).find? (fun a => f a == name) = some x := by
  intro xs
  induction xs with
  | nil =>
    intro x ys hx _
    simp [List.find?, hx]
  | cons q qs ih =>
    intro x ys hx hall
    have hq : (f q == name) = false := by
      simp only [beq_eq_false_iff_ne, ne_eq]
      exact hall q (List.mem_cons_self q qs)
    rw [List.cons_append]
    simp only [List.find?, hq]
    exact ih x ys hx (fun r hr => hall r (List.mem_cons_of_mem q hr))

/-- Claim C5: both resolvers select the first occurrence in list order when
several boards (or columns) carry the configured name. -/
theorem c5_resolver_selects_first_match (xs ys : List Project) (p : Project)
    (us vs : List Column) (c : Column) (boardName columnName : String)
    (hp : p.name = boardName) (hxs : ∀ q ∈ xs, q.name ≠ boardName)
    (hc : c.name = columnName) (hus : ∀ d ∈ us, d.name ≠ columnName) :
    findProject (xs ++ p :: ys) boardName = some p ∧
    findColumn (us ++ c :: vs) columnName = some c := by
  constructor
  · exact find?_eq_first Project.name boardName xs p ys hp hxs
  · exact find?_eq_first Column.name columnName us c vs hc hus

/-- Witness for claim C5 on lists with duplicate names. -/
theorem c5_witness :
    ((⟨1, "Status SOB Swarm"⟩ : Project).name = "Status SOB Swarm" ∧
      (⟨5, "bounty-awaiting-approval"⟩ : Column).name = "bounty-awaiting-approval") ∧
    findProject [⟨1, "Status SOB Swarm"⟩, ⟨2, "Status SOB Swarm"⟩] "Status SOB Swarm" =
      some ⟨1, "Status SOB Swarm"⟩ ∧
    findColumn [⟨5, "bounty-awaiting-approval"⟩, ⟨6, "bounty-awaiting-approval"⟩]
      "bounty-awaiting-approval" = some ⟨5, "bounty-awaiting-approval"⟩ :=
  ⟨⟨rfl, rfl⟩,
    c5_resolver_selects_first_match [] [⟨2, "Status SOB Swarm"⟩] ⟨1, "Status SOB Swarm"⟩
      [] [⟨6, "bounty-awaiting-approval"⟩] ⟨5, "bounty-awaiting-approval"⟩
      "Status SOB Swarm" "bounty-awaiting-approval" rfl (by simp) rfl (by simp)⟩

/-! ### Claim C6 -/

/-- Claim C6: when no board in the fetched list matches the configured board
name, the handler aborts before any column fetch and before any card call,
and no notification is sent. -/
theorem c6_board_not_found_aborts (github : GitHub) (env : Env) (cfg : Config)
    (pbc : ProjectBoardConfig) (payload : Payload) (assign : Bool) (ps : List Project)
    (hpb : cfg.bountyProjectBoard = some pbc)
    (hl : payload.label.name = pbc.awaitingApprovalLabelName)
    (hps : github.getOrgProjects = Except.ok ps)
    (hnone : findProject ps pbc.name = none) :
    (assignIssueToBountyAwaitingForApproval github env (some cfg) payload assign).all
      (fun e => !e.isColumnsFetch && !e.isCardCall && !e.isSlackSend) = true := by
  unfold assignIssueToBountyAwaitingForApproval
  have hcond : (payload.label.name != pbc.awaitingApprovalLabelName) = false := by
    simp [hl]
  simp only [hpb, hcond, Bool.false_eq_true, if_false, hps, hnone]
  rfl

/-- Remote responses where the board list holds no board with the configured
name. -/
def ghNoBoardFix : GitHub :=
  { ghOkFix with getOrgProjects := Except.ok [{ id := 77, name := "Other board" }] }

/-- Witness for claim C6 at a concrete input. -/
theorem c6_witness :
    findProject [{ id := 77, name := "Other board" }] pbcFix.name = none ∧
    (assignIssueToBountyAwaitingForApproval ghNoBoardFix envFix (some cfgFix)
      payloadFix true).all
      (fun e => !e.isColumnsFetch && !e.isCardCall && !e.isSlackSend) = true :=
  ⟨by decide, c6_board_not_found_aborts ghNoBoardFix envFix cfgFix pbcFix payloadFix true
    [{ id := 77, name := "Other board" }] rfl rfl rfl (by decide)⟩

/-! ### Claim C4 -/

/-- Claim C4: for every event that reaches the notifier (passing filter and
resolution, with the approval dry-run flag unset), the dispatched message is
the assign text on assign, the official-bounty text on unassign with the
bounty label present, and the unassign text otherwise. -/
theorem c4_notifier_messages (github : GitHub) (env : Env) (cfg : Config)
    (pbc : ProjectBoardConfig) (payload : Payload) (assign : Bool)
    (ps : List Project) (project : Project) (cols : List Column) (column : Column)
    (hpb : cfg.bountyProjectBoard = some pbc)
    (hl : payload.label.name = pbc.awaitingApprovalLabelName)
    (hps : github.getOrgProjects = Except.ok ps)
    (hproj : findProject ps pbc.name = some project)
    (hcols : github.getProjectColumns = Except.ok cols)
    (hcol : findColumn cols pbc.awaitingApprovalColumnName = some column)
    (hflag : env.dryRunBountyApproval = false) :
    (assign = true →
      Effect.slackSend cfg.slackNotificationRoom
        ("Assigned issue to " ++ pbc.awaitingApprovalColumnName ++ " in " ++ pbc.name ++
          " project\n" ++ payload.issue.html_url) ∈
        assignIssueToBountyAwaitingForApproval github env (some cfg) payload assign) ∧
    (assign = false →
      (payload.issue.labels.find? (fun l => l.name == pbc.bountyLabelName)).isSome = true →
      Effect.slackSend cfg.slackNotificationRoom
        (payload.issue.html_url ++ " has been approved as an official bounty!") ∈
        assignIssueToBountyAwaitingForApproval github env (some cfg) payload assign) ∧
    (assign = false →
      (payload.issue.labels.find? (fun l => l.name == pbc.bountyLabelName)).isSome = false →
      Effect.slackSend cfg.slackNotificationRoom
        ("Unassigned issue from " ++ pbc.awaitingApprovalColumnName ++ " in " ++ pbc.name ++
          " project\n" ++ payload.issue.html_url) ∈
        assignIssueToBountyAwaitingForApproval github env (some cfg) payload assign) := by
  have hnote := notifyEffects_sends env cfg.slackNotificationRoom
    (composeMessage pbc.awaitingApprovalColumnName pbc.name payload.issue assign
      ((payload.issue.labels.find? (fun l => l.name == pbc.bountyLabelName)).isSome))
    hflag
    (composeMessage_isEmpty_eq_false pbc.awaitingApprovalColumnName pbc.name
      payload.issue assign _)
  rw [trace_resolved github env cfg pbc payload assign ps project cols column
    hpb hl hps hproj hcols hcol]
  refine ⟨?_, ?_, ?_⟩
  · intro ha
    subst ha
    refine List.mem_cons_of_mem _ (List.mem_cons_of_mem _ (List.mem_cons_of_mem _
      (List.mem_cons_of_mem _ (List.mem_cons_of_mem _ (List.mem_append_right _ ?_)))))
    rw [hnote]
    simp [composeMessage]
  · intro ha ho
    subst ha
    refine List.mem_cons_of_mem _ (List.mem_cons_of_mem _ (List.mem_cons_of_mem _
      (List.mem_cons_of_mem _ (List.mem_cons_of_mem _ (List.mem_append_right _ ?_)))))
    rw [hnote]
    simp [composeMessage, ho]
  · intro ha ho
    subst ha
    refine List.mem_cons_of_mem _ (List.mem_cons_of_mem _ (List.mem_cons_of_mem _
      (List.mem_cons_of_mem _ (List.mem_cons_of_mem _ (List.mem_append_right _ ?_)))))
    rw [hnote]
    simp [composeMessage, ho]

/-- Witness for claim C4 at a concrete assign event. -/
theorem c4_witness :
    envFix.dryRunBountyApproval = false ∧
    Effect.slackSend cfgFix.slackNotificationRoom
      ("Assigned issue to " ++ pbcFix.awaitingApprovalColumnName ++ " in " ++ pbcFix.name ++
        " project\n" ++ payloadFix.issue.html_url) ∈
      assignIssueToBountyAwaitingForApproval ghOkFix envFix (some cfgFix) payloadFix true :=
  ⟨rfl, (c4_notifier_messages ghOkFix envFix cfgFix pbcFix payloadFix true
    [{ id := 11, name := "Status SOB Swarm" }] { id := 11, name := "Status SOB Swarm" }
    [{ id := 22, name := "bounty-awaiting-approval" }]
    { id := 22, name := "bounty-awaiting-approval" }
    rfl rfl rfl (by decide) rfl (by decide) rfl).1 rfl⟩

/-! ### Claim C7 -/

/-- Claim C7: with `DRY_RUN` set, no remote create-card or delete-card call
is ever issued, and every event that reaches the card-synchronisation step
produces the simulation log line instead. -/
theorem c7_dry_run_simulates_card_calls (github : GitHub) (env : Env)
    (h : env.dryRun = true) :
    (∀ (config : Option Config) (isBot : Bool) (payload : Payload) (assign : Bool),
      (handleIssuesLabelEvent github env config isBot payload assign).all
        (fun e => !e.isCreateCard && !e.isDeleteCard) = true) ∧
    (∀ (cfg : Config) (pbc : ProjectBoardConfig) (payload : Payload) (assign : Bool)
      (ps : List Project) (project : Project) (cols : List Column) (column : Column),
      cfg.bountyProjectBoard = some pbc →
      payload.label.name = pbc.awaitingApprovalLabelName →
      github.getOrgProjects = Except.ok ps →
      findProject ps pbc.name = some project →
      github.getProjectColumns = Except.ok cols →
      findColumn cols pbc.awaitingApprovalColumnName = some column →
      Effect.logInfo (if assign then "Would have created card for issue"
        else "Would have deleted card for issue") ∈
        assignIssueToBountyAwaitingForApproval github env (some cfg) payload assign) := by
  constructor
  · intro config isBot payload assign
    apply trace_all_of_components
    · intro s; rfl
    · intro s; rfl
    · intro s; rfl
    · intro o; rfl
    · intro i; rfl
    · intro column
      rw [cardSyncEffects_of_dryRun github env column payload.issue assign h]
      cases assign <;> rfl
    · intro room m
      rcases notifyEffects_cases env room m with hn | hn <;> rw [hn] <;> rfl
  · intro cfg pbc payload assign ps project cols column hpb hl hps hproj hcols hcol
    rw [trace_resolved github env cfg pbc payload assign ps project cols column
      hpb hl hps hproj hcols hcol]
    refine List.mem_cons_of_mem _ (List.mem_cons_of_mem _ (List.mem_cons_of_mem _
      (List.mem_cons_of_mem _ (List.mem_cons_of_mem _ (List.mem_append_left _ ?_)))))
    rw [cardSyncEffects_of_dryRun github env column payload.issue assign h]
    exact List.mem_singleton.mpr rfl

/-- Witness for claim C7 at a concrete input. -/
theorem c7_witness :
    ({ dryRun := true, dryRunBountyApproval := false } : Env).dryRun = true ∧
    (handleIssuesLabelEvent ghOkFix { dryRun := true, dryRunBountyApproval := false }
      (some cfgFix) false payloadFix true).all
      (fun e => !e.isCreateCard && !e.isDeleteCard) = true ∧
    Effect.logInfo (if true then "Would have created card for issue"
      else "Would have deleted card for issue") ∈
      assignIssueToBountyAwaitingForApproval ghOkFix
        { dryRun := true, dryRunBountyApproval := false } (some cfgFix) payloadFix true :=
  ⟨rfl,
    (c7_dry_run_simulates_card_calls ghOkFix
      { dryRun := true, dryRunBountyApproval := false } rfl).1 (some cfgFix) false
      payloadFix true,
    (c7_dry_run_simulates_card_calls ghOkFix
      { dryRun := true, dryRunBountyApproval := false } rfl).2 cfgFix pbcFix payloadFix true
      [{ id := 11, name := "Status SOB Swarm" }] { id := 11, name := "Status SOB Swarm" }
      [{ id := 22, name := "bounty-awaiting-approval" }]
      { id := 22, name := "bounty-awaiting-approval" }
      rfl rfl rfl (by decide) rfl (by decide)⟩

/-! ### Claim C8 -/

/-- Claim C8: on unassign, when the card lookup finds no card in the resolved
column whose referenced issue URL equals the event issue URL, no delete-card
call is issued and no error is logged: the unassign is a valid no-op. -/
theorem c8_unassign_without_card_is_noop (github : GitHub) (env : Env) (cfg : Config)
    (pbc : ProjectBoardConfig) (payload : Payload)
    (ps : List Project) (project : Project) (cols : List Column) (column : Column)
    (cards : List Card)
    (hpb : cfg.bountyProjectBoard = some pbc)
    (hl : payload.label.name = pbc.awaitingApprovalLabelName)
    (hps : github.getOrgProjects = Except.ok ps)
    (hproj : findProject ps pbc.name = some project)
    (hcols : github.getProjectColumns = Except.ok cols)
    (hcol : findColumn cols pbc.awaitingApprovalColumnName = some column)
    (hdry : env.dryRun = false)
    (hcards : github.listCards = Except.ok cards)
    (hfind : getProjectCardForIssue cards payload.issue.url = none) :
    (assignIssueToBountyAwaitingForApproval github env (some cfg) payload false).all
      (fun e => !e.isDeleteCard && !e.isLogError) = true := by
  rw [trace_resolved github env cfg pbc payload false ps project cols column
    hpb hl hps hproj hcols hcol]
  have hcs : cardSyncEffects github env column payload.issue false =
      [Effect.remoteListCards column.id] := by
    unfold cardSyncEffects
    simp [hdry, hcards, hfind]
  rw [hcs]
  rcases notifyEffects_cases env cfg.slackNotificationRoom
      (composeMessage pbc.awaitingApprovalColumnName pbc.name payload.issue false
        ((payload.issue.labels.find? (fun l => l.name == pbc.bountyLabelName)).isSome))
    with hn | hn <;> rw [hn] <;> rfl

/-- Remote responses where the resolved column holds no cards at all. -/
def ghNoCardFix : GitHub :=
  { ghOkFix with listCards := Except.ok [] }

/-- Witness for claim C8 at a concrete input. -/
theorem c8_witness :
    getProjectCardForIssue [] payloadFix.issue.url = none ∧
    (assignIssueToBountyAwaitingForApproval ghNoCardFix envFix (some cfgFix)
      payloadFix false).all (fun e => !e.isDeleteCard && !e.isLogError) = true :=
  ⟨rfl, c8_unassign_without_card_is_noop ghNoCardFix envFix cfgFix pbcFix payloadFix
    [{ id := 11, name := "Status SOB Swarm" }] { id := 11, name := "Status SOB Swarm" }
    [{ id := 22, name := "bounty-awaiting-approval" }]
    { id := 22, name := "bounty-awaiting-approval" } []
    rfl rfl rfl (by decide) rfl (by decide) rfl rfl rfl⟩

/-! ### Claim C9 -/

/-- Claim C9: with `DRY_RUN` set and `DRY_RUN_BOUNTY_APPROVAL` unset, an event
that passes the filter and resolution still dispatches the chat notification;
dry-run suppresses only the board-mutating card calls. -/
theorem c9_dry_run_keeps_notification (github : GitHub) (env : Env) (cfg : Config)
    (pbc : ProjectBoardConfig) (payload : Payload) (assign : Bool)
    (ps : List Project) (project : Project) (cols : List Column) (column : Column)
    (hpb : cfg.bountyProjectBoard = some pbc)
    (hl : payload.label.name = pbc.awaitingApprovalLabelName)
    (hps : github.getOrgProjects = Except.ok ps)
    (hproj : findProject ps pbc.name = some project)
    (hcols : github.getProjectColumns = Except.ok cols)
    (hcol : findColumn cols pbc.awaitingApprovalColumnName = some column)
    (hdry : env.dryRun = true)
    (hflag : env.dryRunBountyApproval = false) :
    (assignIssueToBountyAwaitingForApproval github env (some cfg) payload assign).any
      Effect.isSlackSend = true ∧
    (assignIssueToBountyAwaitingForApproval github env (some cfg) payload assign).all
      (fun e => !e.isCreateCard && !e.isDeleteCard) = true := by
  constructor
  · rw [trace_resolved github env cfg pbc payload assign ps project cols column
      hpb hl hps hproj hcols hcol]
    have hnote := notifyEffects_sends env cfg.slackNotificationRoom
      (composeMessage pbc.awaitingApprovalColumnName pbc.name payload.issue assign
        ((payload.issue.labels.find? (fun l => l.name == pbc.bountyLabelName)).isSome))
      hflag
      (composeMessage_isEmpty_eq_false pbc.awaitingApprovalColumnName pbc.name
        payload.issue assign _)
    rw [hnote]
    simp [List.any_cons, List.any_append, Effect.isSlackSend]
  · have hall : (handleIssuesLabelEvent github env (some cfg) false payload assign).all
        (fun e => !e.isCreateCard && !e.isDeleteCard) = true := by
      apply trace_all_of_components
      · intro s; rfl
      · intro s; rfl
      · intro s; rfl
      · intro o; rfl
      · intro i; rfl
      · intro col
        rw [cardSyncEffects_of_dryRun github env col payload.issue assign hdry]
        cases assign <;> rfl
      · intro room m
        rcases notifyEffects_cases env room m with hn | hn <;> rw [hn] <;> rfl
    simpa [handleIssuesLabelEvent] using hall

/-- Witness for claim C9 at a concrete input. -/
theorem c9_witness :
    ({ dryRun := true, dryRunBountyApproval := false } : Env).dryRun = true ∧
    (assignIssueToBountyAwaitingForApproval ghOkFix
      { dryRun := true, dryRunBountyApproval := false } (some cfgFix)
      payloadFix true).any Effect.isSlackSend = true ∧
    (assignIssueToBountyAwaitingForApproval ghOkFix
      { dryRun := true, dryRunBountyApproval := false } (some cfgFix)
      payloadFix true).all (fun e => !e.isCreateCard && !e.isDeleteCard) = true :=
  ⟨rfl,
    (c9_dry_run_keeps_notification ghOkFix { dryRun := true, dryRunBountyApproval := false }
      cfgFix pbcFix payloadFix true
      [{ id := 11, name := "Status SOB Swarm" }] { id := 11, name := "Status SOB Swarm" }
      [{ id := 22, name := "bounty-awaiting-approval" }]
      { id := 22, name := "bounty-awaiting-approval" }
      rfl rfl rfl (by decide) rfl (by decide) rfl rfl).1,
    (c9_dry_run_keeps_notification ghOkFix { dryRun := true, dryRunBountyApproval := false }
      cfgFix pbcFix payloadFix true
      [{ id := 11, name := "Status SOB Swarm" }] { id := 11, name := "Status SOB Swarm" }
      [{ id := 22, name := "bounty-awaiting-approval" }]
      { id := 22, name := "bounty-awaiting-approval" }
      rfl rfl rfl (by decide) rfl (by decide) rfl rfl).2⟩

/-! ### Claim C10 -/

/-- Claim C10: two assign events identical except for the issue label set
produce identical handler traces; in particular the composed notification
message of the assign branch does not depend on the bounty label. -/
theorem c10_assign_trace_ignores_issue_labels (github : GitHub) (env : Env)
    (config : Option Config) (isBot : Bool) (repo : Repository) (lab : Label)
    (id number : Nat) (url hurl : String) (l1 l2 : List Label) :
    handleIssuesLabelEvent github env config isBot
      ⟨repo, ⟨id, number, url, hurl, l1⟩, lab⟩ true =
    handleIssuesLabelEvent github env config isBot
      ⟨repo, ⟨id, number, url, hurl, l2⟩, lab⟩ true := by
  unfold handleIssuesLabelEvent
  cases isBot
  case true => rfl
  case false =>
    unfold assignIssueToBountyAwaitingForApproval
    rcases config with _ | cfg
    · rfl
    rcases hpb : cfg.bountyProjectBoard with _ | pbc
    · simp only [hpb]
    simp only [hpb]
    cases hcond : (lab.name != pbc.awaitingApprovalLabelName)
    case true =>
      rfl
    case false =>
      rcases hgp : github.getOrgProjects with e | projects
      · simp only [hgp]
      simp only [hgp]
      rcases hfp : findProject projects pbc.name with _ | project
      · simp only [hfp]
      simp only [hfp]
      rcases hgc : github.getProjectColumns with e | cols
      · simp only [hgc]
      simp only [hgc]
      rcases hfc : findColumn cols pbc.awaitingApprovalColumnName with _ | column
      · simp only [hfc]
      simp only [hfc]
      simp [cardSyncEffects, composeMessage, notifyEffects]

end StatusBot
